import Mathlib

/-
Verification of the gate-controller firmware (src/main/main.c).

The gate FSM in the source is a set of per-state loops driven by a
dispatcher (state_machine_task).  We embed one iteration of the active
state's inner loop as a pure step function on an explicit record of the
globals it reads and writes.  When a loop body returns a new state, the
dispatcher immediately runs the next loop's entry actions (motor writes,
deadline establishment, change-driven status publication) before the
next sensor read, so those entry actions are folded into the producing
step.  Publications model publicar_json in the configuration where the
broker client is up and the topics are non-empty (otherwise the C code
drops the message but updates the same variables).  All times are in
microseconds as in esp_timer_get_time.
-/

namespace Gate

/-- State codes, src/main/main.c lines 37-44. -/
def ESTADO_INICIAL : Int := 0

def ESTADO_ERROR : Int := 1

def ESTADO_ABRIENDO : Int := 2

def ESTADO_ABIERTO : Int := 3

def ESTADO_CERRANDO : Int := 4

def ESTADO_CERRADO : Int := 5

def ESTADO_DETENIDO : Int := 6

def ESTADO_DESCONOCIDO : Int := 7

/-- Error codes, src/main/main.c lines 46-50. -/
def ERR_OK : Int := 0

def ERR_TIMEOUT_OPEN : Int := 1

def ERR_TIMEOUT_CLOSE : Int := 2

def ERR_LS_INCONSISTENT : Int := 3

def ERR_STATE_GUARDRAIL : Int := 99

/-- Motion deadline for opening, in milliseconds (line 62). -/
def T_OPEN_MS : Nat := 15000

/-- Motion deadline for closing, in milliseconds (line 63). -/
def T_CLOSE_MS : Nat := 15000

/-- Telemetry period in milliseconds (line 65). -/
def PUB_PERIOD_MS : Nat := 30000

/-- Command alphabet, gate_cmd_t (lines 105-113). -/
inductive gate_cmd where
  | CMD_NONE
  | CMD_OPEN
  | CMD_CLOSE
  | CMD_STOP
  | CMD_TOGGLE
  | CMD_LAMP_ON
  | CMD_LAMP_OFF
deriving DecidableEq, Repr

/-- The two publication topics used by the FSM task: g_topic_status and
g_topic_tele. -/
inductive Topic where
  | status
  | tele
deriving DecidableEq, Repr

/-- One JSON message built by publicar_json (lines 567-581) on the paths
used by the FSM task, where include_mot and include_err are both true. -/
structure Pub where
  topic : Topic
  state : String
  lsa_open : Bool
  lsc_closed : Bool
  motor_open : Bool
  motor_close : Bool
  err : Int
deriving DecidableEq, Repr

/-- estado_str (lines 549-561). -/
def estado_str (e : Int) : String :=
  if e = ESTADO_INICIAL then "INICIAL"
  else if e = ESTADO_ERROR then "ERROR"
  else if e = ESTADO_ABRIENDO then "ABRIENDO"
  else if e = ESTADO_ABIERTO then "ABIERTO"
  else if e = ESTADO_CERRANDO then "CERRANDO"
  else if e = ESTADO_CERRADO then "CERRADO"
  else if e = ESTADO_DETENIDO then "DETENIDO"
  else if e = ESTADO_DESCONOCIDO then "DESCONOCIDO"
  else "???"

/-- The globals owned by the FSM task (lines 116-121), plus the motion
deadline local deadline_us of the moving loops, lifted into the state
because it survives across iterations of one moving episode. -/
structure Fsm where
  g_estado : Int
  g_estado_prev : Int
  g_motorA : Bool
  g_motorC : Bool
  g_lsa : Bool
  g_lsc : Bool
  g_error_code : Int
  g_lamp : Bool
  deadline_us : Nat
  g_last_pub_us : Nat
deriving DecidableEq, Repr

/-- Inputs consumed by one iteration: the two debounced limit readings
from leer_sensores, the command fetch_cmd would yield (none when the
queue poll is empty), and the monotonic clock reading of the cycle. -/
structure CycleIn where
  lsa : Bool
  lsc : Bool
  cmd : Option gate_cmd
  now_us : Nat
deriving DecidableEq, Repr

/-- Result of one iteration: updated globals, messages published during
the iteration in order, and whether a command was dequeued. -/
structure StepOut where
  s : Fsm
  pubs : List Pub
  consumed : Bool
deriving DecidableEq, Repr

/-- motor_stop (line 562). -/
def motor_stop (s : Fsm) : Fsm :=
  {s with g_motorA := false, g_motorC := false}

/-- motor_abrir (line 563): the opposite direction is de-energized first,
then after the brake gap the opening output is energized; both outputs
are never high together at any intermediate instant. -/
def motor_abrir (s : Fsm) : Fsm :=
  {s with g_motorA := true, g_motorC := false}

/-- motor_cerrar (line 564). -/
def motor_cerrar (s : Fsm) : Fsm :=
  {s with g_motorA := false, g_motorC := true}

/-- Lamp value after a command: LAMP_ON and LAMP_OFF set it, anything
else leaves it. -/
def lampVal (b : Bool) (c : gate_cmd) : Bool :=
  if c = gate_cmd.CMD_LAMP_ON then true
  else if c = gate_cmd.CMD_LAMP_OFF then false
  else b

/-- lamp command handling shared by all loops: LAMP_ON and LAMP_OFF only
touch the lamp output. -/
def lampApply (s : Fsm) (c : gate_cmd) : Fsm :=
  {s with g_lamp := lampVal s.g_lamp c}

/-- Payload built by publicar_json from the current globals. -/
def mkPub (t : Topic) (s : Fsm) : Pub :=
  {topic := t, state := estado_str s.g_estado, lsa_open := s.g_lsa,
   lsc_closed := s.g_lsc, motor_open := s.g_motorA,
   motor_close := s.g_motorC, err := s.g_error_code}

/-- publicar_estado_si_cambia (lines 582-588): publish on the status
topic and record the new previous state exactly when g_estado differs
from g_estado_prev. -/
def publicar_estado_si_cambia (s : Fsm) : Fsm × List Pub :=
  if s.g_estado ≠ s.g_estado_prev then
    ({s with g_estado_prev := s.g_estado}, [mkPub Topic.status s])
  else (s, [])

/-- tick_telemetria (lines 589-595). -/
def tick_telemetria (s : Fsm) (now : Nat) : Fsm × List Pub :=
  if PUB_PERIOD_MS * 1000 < now - s.g_last_pub_us then
    ({s with g_last_pub_us := now}, [mkPub Topic.tele s])
  else (s, [])

/-- leer_sensores (lines 545-548): store the debounced readings. -/
def leer_sensores (s : Fsm) (i : CycleIn) : Fsm :=
  {s with g_lsa := i.lsa, g_lsc := i.lsc}

/-- Entry of an idle-state loop (ABIERTO, CERRADO, DETENIDO,
DESCONOCIDO, ERROR): motor_stop then publicar_estado_si_cambia. -/
def goIdle (n : Int) (s : Fsm) : Fsm × List Pub :=
  publicar_estado_si_cambia (motor_stop {s with g_estado := n})

/-- Entry of loop_abriendo (lines 747-750): energize opening, establish
the motion deadline, publish the state change. -/
def goAbriendo (s : Fsm) (now : Nat) : Fsm × List Pub :=
  publicar_estado_si_cambia
    (motor_abrir {s with g_estado := ESTADO_ABRIENDO,
                         deadline_us := now + T_OPEN_MS * 1000})

/-- Entry of loop_cerrando (lines 767-770). -/
def goCerrando (s : Fsm) (now : Nat) : Fsm × List Pub :=
  publicar_estado_si_cambia
    (motor_cerrar {s with g_estado := ESTADO_CERRANDO,
                          deadline_us := now + T_CLOSE_MS * 1000})

/-- Dispatcher handoff: assign the returned state and run the entry
actions of that state's loop. -/
def goto_estado (n : Int) (s : Fsm) (now : Nat) : Fsm × List Pub :=
  if n = ESTADO_ABRIENDO then goAbriendo s now
  else if n = ESTADO_CERRANDO then goCerrando s now
  else goIdle n s

/-- A loop body returning state n: the accumulated publications of the
iteration are followed by those of the next state's entry. -/
def retorno (n : Int) (s : Fsm) (now : Nat) (consumed : Bool)
    (acc : List Pub) : StepOut :=
  let g := goto_estado n s now
  ⟨g.fst, acc ++ g.snd, consumed⟩

/-- Tail of a non-returning iteration: tick_telemetria then
publicar_estado_si_cambia (the vTaskDelay is not modelled). -/
def fin_ciclo (s : Fsm) (now : Nat) (consumed : Bool) : StepOut :=
  let t := tick_telemetria s now
  let p := publicar_estado_si_cambia t.fst
  ⟨p.fst, t.snd ++ p.snd, consumed⟩

/-- One iteration of loop_abierto (lines 677-693). -/
def step_abierto (s0 : Fsm) (i : CycleIn) : StepOut :=
  let s := leer_sensores s0 i
  if s.g_lsa && s.g_lsc then
    retorno ESTADO_ERROR {s with g_error_code := ERR_LS_INCONSISTENT}
      i.now_us false []
  else if s.g_lsc && !s.g_lsa then
    retorno ESTADO_CERRADO s i.now_us false []
  else if !s.g_lsa && !s.g_lsc then
    retorno ESTADO_DESCONOCIDO s i.now_us false []
  else
    match i.cmd with
    | some c =>
      if c = gate_cmd.CMD_CLOSE ∨ c = gate_cmd.CMD_TOGGLE then
        retorno ESTADO_CERRANDO s i.now_us true []
      else if c = gate_cmd.CMD_STOP then
        retorno ESTADO_DETENIDO s i.now_us true []
      else
        fin_ciclo (lampApply s c) i.now_us true
    | none => fin_ciclo s i.now_us false

/-- One iteration of loop_cerrado (lines 694-710). -/
def step_cerrado (s0 : Fsm) (i : CycleIn) : StepOut :=
  let s := leer_sensores s0 i
  if s.g_lsa && s.g_lsc then
    retorno ESTADO_ERROR {s with g_error_code := ERR_LS_INCONSISTENT}
      i.now_us false []
  else if s.g_lsa && !s.g_lsc then
    retorno ESTADO_ABIERTO s i.now_us false []
  else if !s.g_lsa && !s.g_lsc then
    retorno ESTADO_DESCONOCIDO s i.now_us false []
  else
    match i.cmd with
    | some c =>
      if c = gate_cmd.CMD_OPEN ∨ c = gate_cmd.CMD_TOGGLE then
        retorno ESTADO_ABRIENDO s i.now_us true []
      else if c = gate_cmd.CMD_STOP then
        retorno ESTADO_DETENIDO s i.now_us true []
      else
        fin_ciclo (lampApply s c) i.now_us true
    | none => fin_ciclo s i.now_us false

/-- One iteration of loop_detenido (lines 711-728). -/
def step_detenido (s0 : Fsm) (i : CycleIn) : StepOut :=
  let s := leer_sensores s0 i
  if s.g_lsa && s.g_lsc then
    retorno ESTADO_ERROR {s with g_error_code := ERR_LS_INCONSISTENT}
      i.now_us false []
  else if s.g_lsa && !s.g_lsc then
    retorno ESTADO_ABIERTO s i.now_us false []
  else if s.g_lsc && !s.g_lsa then
    retorno ESTADO_CERRADO s i.now_us false []
  else
    match i.cmd with
    | some c =>
      if c = gate_cmd.CMD_OPEN then
        retorno ESTADO_ABRIENDO s i.now_us true []
      else if c = gate_cmd.CMD_CLOSE then
        retorno ESTADO_CERRANDO s i.now_us true []
      else if c = gate_cmd.CMD_TOGGLE then
        retorno (if s.g_lsc then ESTADO_ABRIENDO else ESTADO_CERRANDO)
          s i.now_us true []
      else
        fin_ciclo (lampApply s c) i.now_us true
    | none => fin_ciclo s i.now_us false

/-- One iteration of loop_desconocido (lines 729-746). -/
def step_desconocido (s0 : Fsm) (i : CycleIn) : StepOut :=
  let s := leer_sensores s0 i
  if s.g_lsa && s.g_lsc then
    retorno ESTADO_ERROR {s with g_error_code := ERR_LS_INCONSISTENT}
      i.now_us false []
  else if s.g_lsa && !s.g_lsc then
    retorno ESTADO_ABIERTO s i.now_us false []
  else if s.g_lsc && !s.g_lsa then
    retorno ESTADO_CERRADO s i.now_us false []
  else
    match i.cmd with
    | some c =>
      if c = gate_cmd.CMD_OPEN then
        retorno ESTADO_ABRIENDO s i.now_us true []
      else if c = gate_cmd.CMD_CLOSE then
        retorno ESTADO_CERRANDO s i.now_us true []
      else if c = gate_cmd.CMD_TOGGLE then
        retorno ESTADO_ABRIENDO s i.now_us true []
      else
        fin_ciclo (lampApply s c) i.now_us true
    | none => fin_ciclo s i.now_us false

/-- One iteration of loop_error (lines 656-676).  When the joint
assertion of both limits persists, the loop neither leaves ERROR on the
position checks nor touches g_error_code; commands can still leave. -/
def step_error (s0 : Fsm) (i : CycleIn) : StepOut :=
  let s := leer_sensores s0 i
  if !(s.g_lsa && s.g_lsc) then
    if s.g_lsc && !s.g_lsa then
      retorno ESTADO_CERRADO s i.now_us false []
    else if s.g_lsa && !s.g_lsc then
      retorno ESTADO_ABIERTO s i.now_us false []
    else
      retorno ESTADO_DESCONOCIDO s i.now_us false []
  else
    match i.cmd with
    | some c =>
      let s := lampApply s c
      if c = gate_cmd.CMD_OPEN then
        retorno ESTADO_ABRIENDO s i.now_us true []
      else if c = gate_cmd.CMD_CLOSE then
        retorno ESTADO_CERRANDO s i.now_us true []
      else if c = gate_cmd.CMD_TOGGLE then
        retorno ESTADO_ABRIENDO s i.now_us true []
      else
        fin_ciclo s i.now_us true
    | none => fin_ciclo s i.now_us false

/-- Reversal taken inside loop_abriendo on CMD_CLOSE (line 759): close
direction energized, fresh deadline, g_estado set and published in
place, then the dispatcher hands off to loop_cerrando's entry. -/
def reversa_a_cerrando (s : Fsm) (now : Nat) : StepOut :=
  let s1 := {motor_cerrar s with deadline_us := now + T_CLOSE_MS * 1000,
                                 g_estado := ESTADO_CERRANDO}
  let p := publicar_estado_si_cambia s1
  retorno ESTADO_CERRANDO p.fst now true p.snd

/-- Reversal taken inside loop_cerrando on CMD_OPEN (line 779). -/
def reversa_a_abriendo (s : Fsm) (now : Nat) : StepOut :=
  let s1 := {motor_abrir s with deadline_us := now + T_OPEN_MS * 1000,
                                g_estado := ESTADO_ABRIENDO}
  let p := publicar_estado_si_cambia s1
  retorno ESTADO_ABRIENDO p.fst now true p.snd

/-- One iteration of loop_abriendo (lines 747-766): limit checks come
first, then the strict deadline comparison now > deadline, then at most
one command; CMD_CLOSE reverses in place with a fresh deadline and an
immediate status publication. -/
def step_abriendo (s0 : Fsm) (i : CycleIn) : StepOut :=
  let s := leer_sensores s0 i
  if s.g_lsa && s.g_lsc then
    retorno ESTADO_ERROR
      {motor_stop s with g_error_code := ERR_LS_INCONSISTENT}
      i.now_us false []
  else if s.g_lsa && !s.g_lsc then
    retorno ESTADO_ABIERTO (motor_stop s) i.now_us false []
  else if s.deadline_us < i.now_us then
    retorno ESTADO_ERROR
      {motor_stop s with g_error_code := ERR_TIMEOUT_OPEN}
      i.now_us false []
  else
    match i.cmd with
    | some c =>
      if c = gate_cmd.CMD_STOP then
        retorno ESTADO_DETENIDO (motor_stop s) i.now_us true []
      else if c = gate_cmd.CMD_CLOSE then
        reversa_a_cerrando s i.now_us
      else if c = gate_cmd.CMD_TOGGLE then
        retorno ESTADO_DETENIDO (motor_stop s) i.now_us true []
      else
        fin_ciclo (lampApply s c) i.now_us true
    | none => fin_ciclo s i.now_us false

/-- One iteration of loop_cerrando (lines 767-786). -/
def step_cerrando (s0 : Fsm) (i : CycleIn) : StepOut :=
  let s := leer_sensores s0 i
  if s.g_lsa && s.g_lsc then
    retorno ESTADO_ERROR
      {motor_stop s with g_error_code := ERR_LS_INCONSISTENT}
      i.now_us false []
  else if s.g_lsc && !s.g_lsa then
    retorno ESTADO_CERRADO (motor_stop s) i.now_us false []
  else if s.deadline_us < i.now_us then
    retorno ESTADO_ERROR
      {motor_stop s with g_error_code := ERR_TIMEOUT_CLOSE}
      i.now_us false []
  else
    match i.cmd with
    | some c =>
      if c = gate_cmd.CMD_STOP then
        retorno ESTADO_DETENIDO (motor_stop s) i.now_us true []
      else if c = gate_cmd.CMD_OPEN then
        reversa_a_abriendo s i.now_us
      else if c = gate_cmd.CMD_TOGGLE then
        retorno ESTADO_DETENIDO (motor_stop s) i.now_us true []
      else
        fin_ciclo (lampApply s c) i.now_us true
    | none => fin_ciclo s i.now_us false

/-- Return from loop_inicial with state n: the dispatcher assigns
g_estado, runs publicar_estado_si_cambia (line 801), and the next
iteration enters that state's loop. -/
def inicial_ret (n : Int) (s : Fsm) (now : Nat) : StepOut :=
  let p := publicar_estado_si_cambia {s with g_estado := n}
  retorno n p.fst now false p.snd

/-- loop_inicial (lines 787-793) followed by the dispatcher's
publicar_estado_si_cambia (line 801) and the next loop's entry. -/
def step_inicial (s0 : Fsm) (i : CycleIn) : StepOut :=
  let s := leer_sensores s0 i
  if s.g_lsa && s.g_lsc then
    inicial_ret ESTADO_ERROR {s with g_error_code := ERR_LS_INCONSISTENT}
      i.now_us
  else if s.g_lsa && !s.g_lsc then inicial_ret ESTADO_ABIERTO s i.now_us
  else if s.g_lsc && !s.g_lsa then inicial_ret ESTADO_CERRADO s i.now_us
  else inicial_ret ESTADO_DESCONOCIDO s i.now_us

/-- One step of state_machine_task (lines 796-812): dispatch on
g_estado; the default arm records the guardrail code and re-enters the
ERROR loop. -/
def fsm_step (s : Fsm) (i : CycleIn) : StepOut :=
  if s.g_estado = ESTADO_INICIAL then step_inicial s i
  else if s.g_estado = ESTADO_ABIERTO then step_abierto s i
  else if s.g_estado = ESTADO_CERRADO then step_cerrado s i
  else if s.g_estado = ESTADO_ABRIENDO then step_abriendo s i
  else if s.g_estado = ESTADO_CERRANDO then step_cerrando s i
  else if s.g_estado = ESTADO_DETENIDO then step_detenido s i
  else if s.g_estado = ESTADO_DESCONOCIDO then step_desconocido s i
  else if s.g_estado = ESTADO_ERROR then step_error s i
  else
    retorno ESTADO_ERROR {s with g_error_code := ERR_STATE_GUARDRAIL}
      i.now_us false []

/-- FSM task startup (lines 796-798 and the globals' initializers):
INITIAL state, sentinel previous state -1, motor de-energized, lamp off,
no error, telemetry clock seeded with the task start instant t0. -/
def fsm_init (t0 : Nat) : Fsm :=
  {g_estado := ESTADO_INICIAL, g_estado_prev := -1, g_motorA := false,
   g_motorC := false, g_lsa := false, g_lsc := false,
   g_error_code := ERR_OK, g_lamp := false, deadline_us := 0,
   g_last_pub_us := t0}

/-- Configurations of the FSM task at iteration boundaries. -/
inductive Reachable : Fsm → Prop where
  | init : ∀ t0, Reachable (fsm_init t0)
  | step : ∀ s i, Reachable s → Reachable (fsm_step s i).s

def statusCount (l : List Pub) : Nat :=
  List.countP (fun p => decide (p.topic = Topic.status)) l

def MotorInv (s : Fsm) : Prop :=
  ¬(s.g_motorA = true ∧ s.g_motorC = true) ∧
  ((s.g_estado ≠ ESTADO_ABRIENDO ∧ s.g_estado ≠ ESTADO_CERRANDO) →
    (s.g_motorA = false ∧ s.g_motorC = false))

def PrevOk (o : StepOut) : Prop := o.s.g_estado_prev = o.s.g_estado

def ErrSticky (s0 : Fsm) (o : StepOut) : Prop :=
  (o.s.g_error_code = s0.g_error_code ∨ o.s.g_error_code ≠ ERR_OK) ∧
  ∀ p ∈ o.pubs, p.err = o.s.g_error_code

/-- Input trace driving the FSM from startup into ERROR with code
TIMEOUT_OPEN: classify as UNKNOWN, command OPEN, then let the open
deadline expire. -/
def cexIn1 : CycleIn := ⟨false, false, none, 0⟩

def cexIn2 : CycleIn := ⟨false, false, some gate_cmd.CMD_OPEN, 0⟩

def cexIn3 : CycleIn := ⟨false, false, none, 15000001⟩

/-- Reachable configuration sitting in ERROR with error_code
TIMEOUT_OPEN. -/
def cexErrState : Fsm :=
  (fsm_step (fsm_step (fsm_step (fsm_init 0) cexIn1).s cexIn2).s cexIn3).s

/-- Both limit switches asserted while in ERROR. -/
def cexIn4 : CycleIn := ⟨true, true, none, 15000002⟩

def BOOTMODE_CONFIG_AP : Nat := 0

def BOOTMODE_STA_ONLY : Nat := 1

/-- Connectivity-supervisor state touched by wifi_event_handler and
connect_timeout_task (lines 92-96, 126-127): the boot-mode byte is the
value last written to NVS, restart_requested models esp_restart. -/
structure WifiSt where
  g_wifi_connected : Bool
  g_connect_timer_active : Bool
  g_connect_start_tick : Nat
  g_ap_enabled : Bool
  boot_mode_nvs : Nat
  restart_requested : Bool
deriving DecidableEq, Repr

/-- TickType_t subtraction: unsigned 32-bit wrap-around difference.
Ticks are taken in milliseconds (pdMS_TO_TICKS at a 1 kHz tick rate). -/
def tick_diff (a b : Nat) : Nat :=
  ((a % 2 ^ 32) + 2 ^ 32 - (b % 2 ^ 32)) % 2 ^ 32

/-- The 30 s horizon of connect_timeout_task (line 462). -/
def CONNECT_TIMEOUT_TICKS : Nat := 30000

/-- One poll of connect_timeout_task (lines 461-474): if the watchdog is
armed, no IP has been acquired, and strictly more than the horizon has
elapsed, persist the provisioning boot mode and restart. -/
def connect_timeout_poll (s : WifiSt) (now_tick : Nat) : WifiSt :=
  if s.g_connect_timer_active && !s.g_wifi_connected then
    if CONNECT_TIMEOUT_TICKS < tick_diff now_tick s.g_connect_start_tick then
      {s with boot_mode_nvs := BOOTMODE_CONFIG_AP, restart_requested := true}
    else s
  else s

/-- IP_EVENT_STA_GOT_IP handling (lines 448-457): record connection,
clear the watchdog, drop the access point if it was up, persist
operational boot mode. -/
def on_sta_got_ip (s : WifiSt) : WifiSt :=
  let s1 := {s with g_wifi_connected := true, g_connect_timer_active := false}
  let s2 := if s1.g_ap_enabled then {s1 with g_ap_enabled := false} else s1
  {s2 with boot_mode_nvs := BOOTMODE_STA_ONLY}

def c5WitnessState : WifiSt :=
  {g_wifi_connected := false, g_connect_timer_active := true,
   g_connect_start_tick := 0, g_ap_enabled := true,
   boot_mode_nvs := BOOTMODE_STA_ONLY, restart_requested := false}

/-- Parsed JSON values as produced by cJSON_ParseWithLength; a payload
that fails to parse is modelled as none at the use site. -/
inductive Json where
  | null
  | jbool (b : Bool)
  | num (n : Int)
  | str (s : String)
  | arr (elems : List Json)
  | obj (fields : List (String × Json))

/-- tolower on one ASCII byte, as used by strcasecmp in the C locale. -/
def tolower_ascii (c : Char) : Char :=
  if 'A' ≤ c ∧ c ≤ 'Z' then Char.ofNat (c.toNat + 32) else c

def lower_str (s : String) : String :=
  String.mk (s.toList.map tolower_ascii)

/-- strcasecmp equality: byte-wise comparison after tolower. -/
def strcasecmp_eq (a b : String) : Bool :=
  lower_str a == lower_str b

/-- cJSON_GetObjectItem: first member of an object whose key compares
equal to the wanted key case-insensitively; NULL on non-objects. -/
def get_object_item (j : Json) (key : String) : Option Json :=
  match j with
  | Json.obj fields =>
    (fields.find? (fun kv => strcasecmp_eq kv.fst key)).map (fun kv => kv.snd)
  | _ => none

/-- The string value of the cmd member: the payload must have parsed,
the object lookup must succeed, cJSON_IsString must hold. -/
def cmd_field (payload : Option Json) : Option String :=
  match payload.bind (fun root => get_object_item root "cmd") with
  | some (Json.str v) => some v
  | _ => none

/-- The strcasecmp chain of parse_cmd_json (lines 605-610). -/
def decode_cmd_string (v : String) : gate_cmd :=
  if strcasecmp_eq v "OPEN" then gate_cmd.CMD_OPEN
  else if strcasecmp_eq v "CLOSE" then gate_cmd.CMD_CLOSE
  else if strcasecmp_eq v "STOP" then gate_cmd.CMD_STOP
  else if strcasecmp_eq v "TOGGLE" then gate_cmd.CMD_TOGGLE
  else if strcasecmp_eq v "LAMP_ON" then gate_cmd.CMD_LAMP_ON
  else if strcasecmp_eq v "LAMP_OFF" then gate_cmd.CMD_LAMP_OFF
  else gate_cmd.CMD_NONE

/-- parse_cmd_json (lines 599-614): the payload must parse, carry a
string member cmd, and its value must match one of the six commands
case-insensitively; anything else maps to CMD_NONE. -/
def parse_cmd_json (payload : Option Json) : gate_cmd :=
  match cmd_field payload with
  | some v => decode_cmd_string v
  | none => gate_cmd.CMD_NONE

/-- Command queue capacity, xQueueCreate(16, ...) (line 830). -/
def QUEUE_CAPACITY : Nat := 16

/-- xQueueSend with zero timeout on a bounded FIFO: append when there is
room, otherwise drop the new element and leave the queue unchanged. -/
def xQueueSend (q : List gate_cmd) (c : gate_cmd) : List gate_cmd :=
  if q.length < QUEUE_CAPACITY then q ++ [c] else q

/-- MQTT_EVENT_DATA handling (lines 623-630): decode the payload and
enqueue non-blocking exactly when the decoder produced a command. -/
def mqtt_event_data (q : List gate_cmd) (payload : Option Json) : List gate_cmd :=
  let cmd := parse_cmd_json payload
  if cmd ≠ gate_cmd.CMD_NONE then xQueueSend q cmd else q

/-- hex2val (lines 139-144): digits directly, letters folded to lower
case with a bitwise or of 32, -1 on anything else. -/
def hex2val (c : Char) : Int :=
  if '0' ≤ c ∧ c ≤ '9' then Int.ofNat (c.toNat - '0'.toNat)
  else
    let c2 := Char.ofNat (c.toNat ||| 32)
    if 'a' ≤ c2 ∧ c2 ≤ 'f' then 10 + Int.ofNat (c2.toNat - 'a'.toNat)
    else -1

/-- url_decode_inplace (lines 152-173) on the byte string as a list of
characters: a plus becomes a space, a percent followed by two valid hex
digits becomes the encoded byte, a percent whose following two bytes are
missing or not both hex is copied literally and scanning resumes right
after it. -/
def url_decode_inplace : List Char → List Char
  | [] => []
  | '+' :: rest => ' ' :: url_decode_inplace rest
  | '%' :: a :: b :: rest2 =>
    if 0 ≤ hex2val a ∧ 0 ≤ hex2val b then
      Char.ofNat ((hex2val a).toNat * 16 + (hex2val b).toNat) ::
        url_decode_inplace rest2
    else '%' :: url_decode_inplace (a :: b :: rest2)
  | '%' :: rest => '%' :: url_decode_inplace rest
  | c :: rest => c :: url_decode_inplace rest
termination_by l => l.length
decreasing_by
  all_goals simp [List.length_cons]
  all_goals omega

/-- url_decode_inplace lifted to String. -/
def url_decode_str (s : String) : String :=
  String.mk (url_decode_inplace s.toList)

def c1State : Fsm := (fsm_step (fsm_init 0) ⟨false, true, none, 0⟩).s

def c2AmState : Fsm :=
  {g_estado := ESTADO_CERRADO, g_estado_prev := ESTADO_CERRADO, g_motorA := false,
   g_motorC := false, g_lsa := false, g_lsc := true, g_error_code := ERR_OK,
   g_lamp := false, deadline_us := 0, g_last_pub_us := 0}

def c2AmIn : CycleIn := ⟨true, true, none, 0⟩

def c3In : CycleIn := ⟨false, true, none, 0⟩

def c4Opening : Fsm :=
  {g_estado := ESTADO_ABRIENDO, g_estado_prev := ESTADO_ABRIENDO, g_motorA := true,
   g_motorC := false, g_lsa := false, g_lsc := false, g_error_code := ERR_OK,
   g_lamp := false, deadline_us := 15000000, g_last_pub_us := 0}

def c4Closing : Fsm :=
  {g_estado := ESTADO_CERRANDO, g_estado_prev := ESTADO_CERRANDO, g_motorA := false,
   g_motorC := true, g_lsa := false, g_lsc := false, g_error_code := ERR_OK,
   g_lamp := false, deadline_us := 15000000, g_last_pub_us := 0}

def c4InLimitOpen : CycleIn := ⟨true, false, none, 15000000⟩

def c4InNoLimit : CycleIn := ⟨false, false, none, 15000000⟩

def c4InLimitClosed : CycleIn := ⟨false, true, none, 15000000⟩

def c6Stopped : Fsm :=
  {g_estado := ESTADO_DETENIDO, g_estado_prev := ESTADO_DETENIDO, g_motorA := false,
   g_motorC := false, g_lsa := false, g_lsc := false, g_error_code := ERR_OK,
   g_lamp := false, deadline_us := 0, g_last_pub_us := 0}

def c6Toggle : CycleIn := ⟨false, false, some gate_cmd.CMD_TOGGLE, 0⟩

def c7Payload : Option Json := some (Json.obj [("cmd", Json.str "oPeN")])

def c7FullQueue : List gate_cmd := List.replicate 16 gate_cmd.CMD_CLOSE

def c9Open : Fsm :=
  {g_estado := ESTADO_ABIERTO, g_estado_prev := ESTADO_ABIERTO, g_motorA := false,
   g_motorC := false, g_lsa := true, g_lsc := false,
   g_error_code := ERR_TIMEOUT_CLOSE, g_lamp := false, deadline_us := 0,
   g_last_pub_us := 0}

def c9In : CycleIn := ⟨false, true, none, 0⟩

def c9Pub : Pub :=
  {topic := Topic.status, state := "CERRADO", lsa_open := false, lsc_closed := true,
   motor_open := false, motor_close := false, err := ERR_TIMEOUT_CLOSE}

def c10Stopped : Fsm :=
  {g_estado := ESTADO_DETENIDO, g_estado_prev := ESTADO_DETENIDO, g_motorA := false,
   g_motorC := false, g_lsa := false, g_lsc := false, g_error_code := ERR_OK,
   g_lamp := false, deadline_us := 0, g_last_pub_us := 0}

def c10OpenLimit : CycleIn := ⟨true, false, some gate_cmd.CMD_TOGGLE, 0⟩

def c10ClosedLimit : CycleIn := ⟨false, true, some gate_cmd.CMD_OPEN, 0⟩

def c10NoLimit : CycleIn := ⟨false, false, some gate_cmd.CMD_TOGGLE, 0⟩

lemma retorno_estado (n : Int) (s : Fsm) (now : Nat) (c : Bool) (acc : List Pub) :
    (retorno n s now c acc).s.g_estado = n := by
  unfold retorno goto_estado goAbriendo goCerrando goIdle publicar_estado_si_cambia
    motor_stop motor_abrir motor_cerrar
  repeat' split
  all_goals simp_all

lemma retorno_prev (n : Int) (s : Fsm) (now : Nat) (c : Bool) (acc : List Pub) :
    (retorno n s now c acc).s.g_estado_prev = n := by
  unfold retorno goto_estado goAbriendo goCerrando goIdle publicar_estado_si_cambia
    motor_stop motor_abrir motor_cerrar
  repeat' split
  all_goals simp_all

lemma retorno_err (n : Int) (s : Fsm) (now : Nat) (c : Bool) (acc : List Pub) :
    (retorno n s now c acc).s.g_error_code = s.g_error_code := by
  unfold retorno goto_estado goAbriendo goCerrando goIdle publicar_estado_si_cambia
    motor_stop motor_abrir motor_cerrar
  repeat' split
  all_goals simp_all

lemma motorInv_retorno (n : Int) (s : Fsm) (now : Nat) (c : Bool) (acc : List Pub) :
    MotorInv (retorno n s now c acc).s := by
  unfold MotorInv retorno goto_estado goAbriendo goCerrando goIdle publicar_estado_si_cambia
    motor_stop motor_abrir motor_cerrar
  repeat' split
  all_goals simp_all [ESTADO_ABRIENDO, ESTADO_CERRANDO]

lemma retorno_count (n : Int) (s : Fsm) (now : Nat) (c : Bool) (acc : List Pub) :
    statusCount (retorno n s now c acc).pubs =
      statusCount acc + (if s.g_estado_prev = n then 0 else 1) := by
  unfold retorno goto_estado goAbriendo goCerrando goIdle publicar_estado_si_cambia
    motor_stop motor_abrir motor_cerrar
  repeat' split
  all_goals simp_all [statusCount, mkPub, eq_comm]

lemma retorno_pubs_err (n : Int) (s : Fsm) (now : Nat) (c : Bool) (acc : List Pub)
    (h : ∀ p ∈ acc, p.err = s.g_error_code) :
    ∀ p ∈ (retorno n s now c acc).pubs, p.err = s.g_error_code := by
  unfold retorno goto_estado goAbriendo goCerrando goIdle publicar_estado_si_cambia
    motor_stop motor_abrir motor_cerrar
  repeat' split
  all_goals simp_all [mkPub]
  all_goals intro p hp
  all_goals rcases hp with hp | hp
  all_goals simp_all

lemma fin_ciclo_s_fields (s : Fsm) (now : Nat) (c : Bool) :
    (fin_ciclo s now c).s.g_estado = s.g_estado ∧
    (fin_ciclo s now c).s.g_estado_prev = s.g_estado ∧
    (fin_ciclo s now c).s.g_motorA = s.g_motorA ∧
    (fin_ciclo s now c).s.g_motorC = s.g_motorC ∧
    (fin_ciclo s now c).s.g_error_code = s.g_error_code := by
  simp only [fin_ciclo, tick_telemetria, publicar_estado_si_cambia]
  repeat' split
  all_goals simp_all

lemma fin_ciclo_count (s : Fsm) (now : Nat) (c : Bool) :
    statusCount (fin_ciclo s now c).pubs =
      (if s.g_estado_prev = s.g_estado then 0 else 1) := by
  simp only [fin_ciclo, tick_telemetria, publicar_estado_si_cambia]
  repeat' split
  all_goals simp_all [statusCount, mkPub, eq_comm]

lemma fin_ciclo_pubs_err (s : Fsm) (now : Nat) (c : Bool) :
    ∀ p ∈ (fin_ciclo s now c).pubs, p.err = s.g_error_code := by
  simp only [fin_ciclo, tick_telemetria, publicar_estado_si_cambia]
  repeat' split
  all_goals simp_all [mkPub]

lemma fin_ciclo_consumed (s : Fsm) (now : Nat) (c : Bool) :
    (fin_ciclo s now c).consumed = c := rfl

lemma retorno_consumed (n : Int) (s : Fsm) (now : Nat) (c : Bool) (acc : List Pub) :
    (retorno n s now c acc).consumed = c := rfl

lemma reversa_c_fields (s : Fsm) (now : Nat) :
    (reversa_a_cerrando s now).s.g_estado = ESTADO_CERRANDO ∧
    (reversa_a_cerrando s now).s.g_estado_prev = ESTADO_CERRANDO ∧
    (reversa_a_cerrando s now).s.g_error_code = s.g_error_code ∧
    MotorInv (reversa_a_cerrando s now).s := by
  simp only [reversa_a_cerrando]
  exact ⟨retorno_estado _ _ _ _ _, retorno_prev _ _ _ _ _,
    by rw [retorno_err]; simp [publicar_estado_si_cambia]; split <;> simp [motor_cerrar],
    motorInv_retorno _ _ _ _ _⟩

lemma reversa_a_fields (s : Fsm) (now : Nat) :
    (reversa_a_abriendo s now).s.g_estado = ESTADO_ABRIENDO ∧
    (reversa_a_abriendo s now).s.g_estado_prev = ESTADO_ABRIENDO ∧
    (reversa_a_abriendo s now).s.g_error_code = s.g_error_code ∧
    MotorInv (reversa_a_abriendo s now).s := by
  simp only [reversa_a_abriendo]
  exact ⟨retorno_estado _ _ _ _ _, retorno_prev _ _ _ _ _,
    by rw [retorno_err]; simp [publicar_estado_si_cambia]; split <;> simp [motor_abrir],
    motorInv_retorno _ _ _ _ _⟩

lemma reversa_c_count (s : Fsm) (now : Nat) :
    statusCount (reversa_a_cerrando s now).pubs =
      (if s.g_estado_prev = ESTADO_CERRANDO then 0 else 1) := by
  simp only [reversa_a_cerrando]
  rw [retorno_count]
  simp only [publicar_estado_si_cambia, motor_cerrar]
  split <;> simp_all [statusCount, mkPub, eq_comm]

lemma reversa_a_count (s : Fsm) (now : Nat) :
    statusCount (reversa_a_abriendo s now).pubs =
      (if s.g_estado_prev = ESTADO_ABRIENDO then 0 else 1) := by
  simp only [reversa_a_abriendo]
  rw [retorno_count]
  simp only [publicar_estado_si_cambia, motor_abrir]
  split <;> simp_all [statusCount, mkPub, eq_comm]

lemma reversa_c_consumed (s : Fsm) (now : Nat) :
    (reversa_a_cerrando s now).consumed = true := rfl

lemma reversa_a_consumed (s : Fsm) (now : Nat) :
    (reversa_a_abriendo s now).consumed = true := rfl

lemma inicial_ret_fields (n : Int) (s : Fsm) (now : Nat) :
    (inicial_ret n s now).s.g_estado = n ∧
    (inicial_ret n s now).s.g_estado_prev = n ∧
    (inicial_ret n s now).s.g_error_code = s.g_error_code ∧
    MotorInv (inicial_ret n s now).s := by
  simp only [inicial_ret]
  exact ⟨retorno_estado _ _ _ _ _, retorno_prev _ _ _ _ _,
    by rw [retorno_err]; simp [publicar_estado_si_cambia]; split <;> simp,
    motorInv_retorno _ _ _ _ _⟩

lemma inicial_ret_count (n : Int) (s : Fsm) (now : Nat) :
    statusCount (inicial_ret n s now).pubs =
      (if s.g_estado_prev = n then 0 else 1) := by
  simp only [inicial_ret]
  rw [retorno_count]
  simp only [publicar_estado_si_cambia]
  split <;> simp_all [statusCount, mkPub, eq_comm]

lemma publicar_fst_err (s : Fsm) :
    (publicar_estado_si_cambia s).fst.g_error_code = s.g_error_code := by
  unfold publicar_estado_si_cambia; split <;> rfl

lemma publicar_snd_err (s : Fsm) :
    ∀ p ∈ (publicar_estado_si_cambia s).snd, p.err = s.g_error_code := by
  unfold publicar_estado_si_cambia; split <;> simp [mkPub]

lemma retorno_pubs_err_mem (n : Int) (s : Fsm) (now : Nat) (c : Bool) (acc : List Pub) :
    ∀ p ∈ (retorno n s now c acc).pubs, p ∈ acc ∨ p.err = s.g_error_code := by
  unfold retorno goto_estado goAbriendo goCerrando goIdle publicar_estado_si_cambia
    motor_stop motor_abrir motor_cerrar
  repeat' split
  all_goals simp_all [mkPub]
  all_goals exact fun p hp => hp.imp id (fun he => by rw [he])

lemma reversa_c_pubs_err (s : Fsm) (now : Nat) :
    ∀ q ∈ (reversa_a_cerrando s now).pubs, q.err = s.g_error_code := by
  simp only [reversa_a_cerrando]
  intro q hq
  rcases retorno_pubs_err_mem ESTADO_CERRANDO _ now true _ q hq with h | h
  · have := publicar_snd_err _ q h
    rw [this]
    try rfl
  · rw [h, publicar_fst_err]
    try rfl

lemma reversa_a_pubs_err (s : Fsm) (now : Nat) :
    ∀ q ∈ (reversa_a_abriendo s now).pubs, q.err = s.g_error_code := by
  simp only [reversa_a_abriendo]
  intro q hq
  rcases retorno_pubs_err_mem ESTADO_ABRIENDO _ now true _ q hq with h | h
  · have := publicar_snd_err _ q h
    rw [this]
    try rfl
  · rw [h, publicar_fst_err]
    try rfl

lemma inicial_ret_pubs_err (n : Int) (s : Fsm) (now : Nat) :
    ∀ q ∈ (inicial_ret n s now).pubs, q.err = s.g_error_code := by
  simp only [inicial_ret]
  intro q hq
  rcases retorno_pubs_err_mem n _ now false _ q hq with h | h
  · have := publicar_snd_err _ q h
    rw [this]
    try rfl
  · rw [h, publicar_fst_err]
    try rfl

lemma motorInv_of_fields (s t : Fsm) (h : MotorInv s) (hA : t.g_motorA = s.g_motorA)
    (hC : t.g_motorC = s.g_motorC) (hE : t.g_estado = s.g_estado) : MotorInv t := by
  unfold MotorInv at h ⊢
  rw [hA, hC, hE]
  exact h

lemma motorInv_fin (s : Fsm) (now : Nat) (c : Bool) (h : MotorInv s) :
    MotorInv (fin_ciclo s now c).s := by
  obtain ⟨h1, _, h3, h4, _⟩ := fin_ciclo_s_fields s now c
  unfold MotorInv at h ⊢
  rw [h1, h3, h4]
  exact h

lemma motorInv_step_inicial (s : Fsm) (i : CycleIn) :
    MotorInv (step_inicial s i).s := by
  unfold step_inicial
  dsimp only
  repeat' split
  all_goals exact (inicial_ret_fields _ _ _).2.2.2

lemma motorInv_step_abierto (s : Fsm) (i : CycleIn) (h : MotorInv s) :
    MotorInv (step_abierto s i).s := by
  unfold step_abierto
  dsimp only
  repeat' split
  all_goals first
    | apply motorInv_retorno
    | exact motorInv_fin _ _ _ (motorInv_of_fields _ _ h rfl rfl rfl)

lemma motorInv_step_cerrado (s : Fsm) (i : CycleIn) (h : MotorInv s) :
    MotorInv (step_cerrado s i).s := by
  unfold step_cerrado
  dsimp only
  repeat' split
  all_goals first
    | apply motorInv_retorno
    | exact motorInv_fin _ _ _ (motorInv_of_fields _ _ h rfl rfl rfl)

lemma motorInv_step_detenido (s : Fsm) (i : CycleIn) (h : MotorInv s) :
    MotorInv (step_detenido s i).s := by
  unfold step_detenido
  dsimp only
  repeat' split
  all_goals first
    | apply motorInv_retorno
    | exact motorInv_fin _ _ _ (motorInv_of_fields _ _ h rfl rfl rfl)

lemma motorInv_step_desconocido (s : Fsm) (i : CycleIn) (h : MotorInv s) :
    MotorInv (step_desconocido s i).s := by
  unfold step_desconocido
  dsimp only
  repeat' split
  all_goals first
    | apply motorInv_retorno
    | exact motorInv_fin _ _ _ (motorInv_of_fields _ _ h rfl rfl rfl)

lemma motorInv_step_error (s : Fsm) (i : CycleIn) (h : MotorInv s) :
    MotorInv (step_error s i).s := by
  unfold step_error
  dsimp only
  repeat' split
  all_goals first
    | apply motorInv_retorno
    | exact motorInv_fin _ _ _ (motorInv_of_fields _ _ h rfl rfl rfl)

lemma motorInv_step_abriendo (s : Fsm) (i : CycleIn) (h : MotorInv s) :
    MotorInv (step_abriendo s i).s := by
  unfold step_abriendo
  dsimp only
  repeat' split
  all_goals first
    | apply motorInv_retorno
    | exact (reversa_c_fields _ _).2.2.2
    | exact motorInv_fin _ _ _ (motorInv_of_fields _ _ h rfl rfl rfl)

lemma motorInv_step_cerrando (s : Fsm) (i : CycleIn) (h : MotorInv s) :
    MotorInv (step_cerrando s i).s := by
  unfold step_cerrando
  dsimp only
  repeat' split
  all_goals first
    | apply motorInv_retorno
    | exact (reversa_a_fields _ _).2.2.2
    | exact motorInv_fin _ _ _ (motorInv_of_fields _ _ h rfl rfl rfl)

lemma motorInv_step (s : Fsm) (i : CycleIn) (h : MotorInv s) :
    MotorInv (fsm_step s i).s := by
  unfold fsm_step
  repeat' split
  all_goals first
    | exact motorInv_step_inicial s i
    | exact motorInv_step_abierto s i h
    | exact motorInv_step_cerrado s i h
    | exact motorInv_step_detenido s i h
    | exact motorInv_step_desconocido s i h
    | exact motorInv_step_error s i h
    | exact motorInv_step_abriendo s i h
    | exact motorInv_step_cerrando s i h
    | apply motorInv_retorno

lemma motorInv_reachable (s : Fsm) (h : Reachable s) : MotorInv s := by
  induction h with
  | init t0 =>
    unfold MotorInv fsm_init
    simp
  | step s i hs ih => exact motorInv_step s i ih

lemma fin_ciclo_estado (s : Fsm) (now : Nat) (c : Bool) :
    (fin_ciclo s now c).s.g_estado = s.g_estado := (fin_ciclo_s_fields s now c).1

lemma fin_ciclo_prev (s : Fsm) (now : Nat) (c : Bool) :
    (fin_ciclo s now c).s.g_estado_prev = s.g_estado := (fin_ciclo_s_fields s now c).2.1

lemma fin_ciclo_err (s : Fsm) (now : Nat) (c : Bool) :
    (fin_ciclo s now c).s.g_error_code = s.g_error_code := (fin_ciclo_s_fields s now c).2.2.2.2

lemma reversa_c_estado (s : Fsm) (now : Nat) :
    (reversa_a_cerrando s now).s.g_estado = ESTADO_CERRANDO := (reversa_c_fields s now).1

lemma reversa_c_prev (s : Fsm) (now : Nat) :
    (reversa_a_cerrando s now).s.g_estado_prev = ESTADO_CERRANDO := (reversa_c_fields s now).2.1

lemma reversa_c_err (s : Fsm) (now : Nat) :
    (reversa_a_cerrando s now).s.g_error_code = s.g_error_code := (reversa_c_fields s now).2.2.1

lemma reversa_a_estado (s : Fsm) (now : Nat) :
    (reversa_a_abriendo s now).s.g_estado = ESTADO_ABRIENDO := (reversa_a_fields s now).1

lemma reversa_a_prev (s : Fsm) (now : Nat) :
    (reversa_a_abriendo s now).s.g_estado_prev = ESTADO_ABRIENDO := (reversa_a_fields s now).2.1

lemma reversa_a_err (s : Fsm) (now : Nat) :
    (reversa_a_abriendo s now).s.g_error_code = s.g_error_code := (reversa_a_fields s now).2.2.1

lemma inicial_ret_estado (n : Int) (s : Fsm) (now : Nat) :
    (inicial_ret n s now).s.g_estado = n := (inicial_ret_fields n s now).1

lemma inicial_ret_prev (n : Int) (s : Fsm) (now : Nat) :
    (inicial_ret n s now).s.g_estado_prev = n := (inicial_ret_fields n s now).2.1

lemma inicial_ret_err (n : Int) (s : Fsm) (now : Nat) :
    (inicial_ret n s now).s.g_error_code = s.g_error_code := (inicial_ret_fields n s now).2.2.1

lemma prevOk_retorno (n : Int) (s : Fsm) (now : Nat) (c : Bool) (acc : List Pub) :
    PrevOk (retorno n s now c acc) := by
  unfold PrevOk
  rw [retorno_prev, retorno_estado]

lemma prevOk_fin (s : Fsm) (now : Nat) (c : Bool) : PrevOk (fin_ciclo s now c) := by
  unfold PrevOk
  rw [fin_ciclo_prev, fin_ciclo_estado]

lemma prevOk_reversa_c (s : Fsm) (now : Nat) : PrevOk (reversa_a_cerrando s now) := by
  unfold PrevOk
  rw [reversa_c_prev, reversa_c_estado]

lemma prevOk_reversa_a (s : Fsm) (now : Nat) : PrevOk (reversa_a_abriendo s now) := by
  unfold PrevOk
  rw [reversa_a_prev, reversa_a_estado]

lemma prevOk_inicial (n : Int) (s : Fsm) (now : Nat) : PrevOk (inicial_ret n s now) := by
  unfold PrevOk
  rw [inicial_ret_prev, inicial_ret_estado]

lemma prevOk_step_inicial (s : Fsm) (i : CycleIn) : PrevOk (step_inicial s i) := by
  unfold step_inicial
  dsimp only
  repeat' split
  all_goals first
    | apply prevOk_retorno
    | apply prevOk_fin
    | apply prevOk_reversa_c
    | apply prevOk_reversa_a
    | apply prevOk_inicial

lemma prevOk_step_abierto (s : Fsm) (i : CycleIn) : PrevOk (step_abierto s i) := by
  unfold step_abierto
  dsimp only
  repeat' split
  all_goals first
    | apply prevOk_retorno
    | apply prevOk_fin
    | apply prevOk_reversa_c
    | apply prevOk_reversa_a
    | apply prevOk_inicial

lemma prevOk_step_cerrado (s : Fsm) (i : CycleIn) : PrevOk (step_cerrado s i) := by
  unfold step_cerrado
  dsimp only
  repeat' split
  all_goals first
    | apply prevOk_retorno
    | apply prevOk_fin
    | apply prevOk_reversa_c
    | apply prevOk_reversa_a
    | apply prevOk_inicial

lemma prevOk_step_detenido (s : Fsm) (i : CycleIn) : PrevOk (step_detenido s i) := by
  unfold step_detenido
  dsimp only
  repeat' split
  all_goals first
    | apply prevOk_retorno
    | apply prevOk_fin
    | apply prevOk_reversa_c
    | apply prevOk_reversa_a
    | apply prevOk_inicial

lemma prevOk_step_desconocido (s : Fsm) (i : CycleIn) : PrevOk (step_desconocido s i) := by
  unfold step_desconocido
  dsimp only
  repeat' split
  all_goals first
    | apply prevOk_retorno
    | apply prevOk_fin
    | apply prevOk_reversa_c
    | apply prevOk_reversa_a
    | apply prevOk_inicial

lemma prevOk_step_error (s : Fsm) (i : CycleIn) : PrevOk (step_error s i) := by
  unfold step_error
  dsimp only
  repeat' split
  all_goals first
    | apply prevOk_retorno
    | apply prevOk_fin
    | apply prevOk_reversa_c
    | apply prevOk_reversa_a
    | apply prevOk_inicial

lemma prevOk_step_abriendo (s : Fsm) (i : CycleIn) : PrevOk (step_abriendo s i) := by
  unfold step_abriendo
  dsimp only
  repeat' split
  all_goals first
    | apply prevOk_retorno
    | apply prevOk_fin
    | apply prevOk_reversa_c
    | apply prevOk_reversa_a
    | apply prevOk_inicial

lemma prevOk_step_cerrando (s : Fsm) (i : CycleIn) : PrevOk (step_cerrando s i) := by
  unfold step_cerrando
  dsimp only
  repeat' split
  all_goals first
    | apply prevOk_retorno
    | apply prevOk_fin
    | apply prevOk_reversa_c
    | apply prevOk_reversa_a
    | apply prevOk_inicial

lemma prevOk_step (s : Fsm) (i : CycleIn) : PrevOk (fsm_step s i) := by
  unfold fsm_step
  repeat' split
  all_goals first
    | apply prevOk_step_inicial
    | apply prevOk_step_abierto
    | apply prevOk_step_cerrado
    | apply prevOk_step_detenido
    | apply prevOk_step_desconocido
    | apply prevOk_step_error
    | apply prevOk_step_abriendo
    | apply prevOk_step_cerrando
    | apply prevOk_retorno

lemma fsm_step_eq_inicial (s : Fsm) (i : CycleIn) (h : s.g_estado = ESTADO_INICIAL) :
    fsm_step s i = step_inicial s i := by
  unfold fsm_step
  simp [h]

lemma fsm_step_eq_abierto (s : Fsm) (i : CycleIn) (h : s.g_estado = ESTADO_ABIERTO) :
    fsm_step s i = step_abierto s i := by
  unfold fsm_step
  simp [h, ESTADO_INICIAL, ESTADO_ABIERTO]

lemma fsm_step_eq_cerrado (s : Fsm) (i : CycleIn) (h : s.g_estado = ESTADO_CERRADO) :
    fsm_step s i = step_cerrado s i := by
  unfold fsm_step
  simp [h, ESTADO_INICIAL, ESTADO_ABIERTO, ESTADO_CERRADO]

lemma fsm_step_eq_abriendo (s : Fsm) (i : CycleIn) (h : s.g_estado = ESTADO_ABRIENDO) :
    fsm_step s i = step_abriendo s i := by
  unfold fsm_step
  simp [h, ESTADO_INICIAL, ESTADO_ABIERTO, ESTADO_CERRADO, ESTADO_ABRIENDO]

lemma fsm_step_eq_cerrando (s : Fsm) (i : CycleIn) (h : s.g_estado = ESTADO_CERRANDO) :
    fsm_step s i = step_cerrando s i := by
  unfold fsm_step
  simp [h, ESTADO_INICIAL, ESTADO_ABIERTO, ESTADO_CERRADO, ESTADO_ABRIENDO, ESTADO_CERRANDO]

lemma fsm_step_eq_detenido (s : Fsm) (i : CycleIn) (h : s.g_estado = ESTADO_DETENIDO) :
    fsm_step s i = step_detenido s i := by
  unfold fsm_step
  simp [h, ESTADO_INICIAL, ESTADO_ABIERTO, ESTADO_CERRADO, ESTADO_ABRIENDO, ESTADO_CERRANDO,
    ESTADO_DETENIDO]

lemma fsm_step_eq_desconocido (s : Fsm) (i : CycleIn) (h : s.g_estado = ESTADO_DESCONOCIDO) :
    fsm_step s i = step_desconocido s i := by
  unfold fsm_step
  simp [h, ESTADO_INICIAL, ESTADO_ABIERTO, ESTADO_CERRADO, ESTADO_ABRIENDO, ESTADO_CERRANDO,
    ESTADO_DETENIDO, ESTADO_DESCONOCIDO]

lemma fsm_step_eq_error (s : Fsm) (i : CycleIn) (h : s.g_estado = ESTADO_ERROR) :
    fsm_step s i = step_error s i := by
  unfold fsm_step
  simp [h, ESTADO_INICIAL, ESTADO_ABIERTO, ESTADO_CERRADO, ESTADO_ABRIENDO, ESTADO_CERRANDO,
    ESTADO_DETENIDO, ESTADO_DESCONOCIDO, ESTADO_ERROR]

lemma fsm_step_eq_guardrail (s : Fsm) (i : CycleIn)
    (h0 : s.g_estado ≠ ESTADO_INICIAL) (h1 : s.g_estado ≠ ESTADO_ERROR)
    (h2 : s.g_estado ≠ ESTADO_ABRIENDO) (h3 : s.g_estado ≠ ESTADO_ABIERTO)
    (h4 : s.g_estado ≠ ESTADO_CERRANDO) (h5 : s.g_estado ≠ ESTADO_CERRADO)
    (h6 : s.g_estado ≠ ESTADO_DETENIDO) (h7 : s.g_estado ≠ ESTADO_DESCONOCIDO) :
    fsm_step s i =
      retorno ESTADO_ERROR {s with g_error_code := ERR_STATE_GUARDRAIL} i.now_us false [] := by
  unfold fsm_step
  simp [h0, h1, h2, h3, h4, h5, h6, h7]

lemma errSticky_retorno (s0 : Fsm) (n : Int) (s : Fsm) (now : Nat) (c : Bool)
    (h : s.g_error_code = s0.g_error_code ∨ s.g_error_code ≠ ERR_OK) :
    ErrSticky s0 (retorno n s now c []) := by
  constructor
  · rw [retorno_err]
    exact h
  · intro p hp
    rcases retorno_pubs_err_mem n s now c [] p hp with h2 | h2
    · simp at h2
    · rw [h2, retorno_err]

lemma errSticky_fin (s0 : Fsm) (s : Fsm) (now : Nat) (c : Bool)
    (h : s.g_error_code = s0.g_error_code ∨ s.g_error_code ≠ ERR_OK) :
    ErrSticky s0 (fin_ciclo s now c) := by
  constructor
  · rw [fin_ciclo_err]
    exact h
  · intro p hp
    have h2 := fin_ciclo_pubs_err s now c p hp
    rw [fin_ciclo_err]
    exact h2

lemma errSticky_reversa_c (s0 : Fsm) (s : Fsm) (now : Nat)
    (h : s.g_error_code = s0.g_error_code ∨ s.g_error_code ≠ ERR_OK) :
    ErrSticky s0 (reversa_a_cerrando s now) := by
  constructor
  · rw [reversa_c_err]
    exact h
  · intro p hp
    have h2 := reversa_c_pubs_err s now p hp
    rw [reversa_c_err]
    exact h2

lemma errSticky_reversa_a (s0 : Fsm) (s : Fsm) (now : Nat)
    (h : s.g_error_code = s0.g_error_code ∨ s.g_error_code ≠ ERR_OK) :
    ErrSticky s0 (reversa_a_abriendo s now) := by
  constructor
  · rw [reversa_a_err]
    exact h
  · intro p hp
    have h2 := reversa_a_pubs_err s now p hp
    rw [reversa_a_err]
    exact h2

lemma errSticky_inicial (s0 : Fsm) (n : Int) (s : Fsm) (now : Nat)
    (h : s.g_error_code = s0.g_error_code ∨ s.g_error_code ≠ ERR_OK) :
    ErrSticky s0 (inicial_ret n s now) := by
  constructor
  · rw [inicial_ret_err]
    exact h
  · intro p hp
    have h2 := inicial_ret_pubs_err n s now p hp
    rw [inicial_ret_err]
    exact h2

lemma errSticky_step_inicial (s : Fsm) (i : CycleIn) : ErrSticky s (step_inicial s i) := by
  unfold step_inicial
  dsimp only
  repeat' split
  all_goals first
    | (apply errSticky_inicial
       first
         | exact Or.inl rfl
         | exact Or.inr (by simp [ERR_LS_INCONSISTENT, ERR_TIMEOUT_OPEN, ERR_TIMEOUT_CLOSE, ERR_STATE_GUARDRAIL, ERR_OK]))

lemma errSticky_step_abierto (s : Fsm) (i : CycleIn) : ErrSticky s (step_abierto s i) := by
  unfold step_abierto
  dsimp only
  repeat' split
  all_goals first
    | (apply errSticky_retorno
       first
         | exact Or.inl rfl
         | exact Or.inr (by simp [ERR_LS_INCONSISTENT, ERR_TIMEOUT_OPEN, ERR_TIMEOUT_CLOSE, ERR_STATE_GUARDRAIL, ERR_OK]))
    | exact errSticky_fin _ _ _ _ (Or.inl rfl)

lemma errSticky_step_cerrado (s : Fsm) (i : CycleIn) : ErrSticky s (step_cerrado s i) := by
  unfold step_cerrado
  dsimp only
  repeat' split
  all_goals first
    | (apply errSticky_retorno
       first
         | exact Or.inl rfl
         | exact Or.inr (by simp [ERR_LS_INCONSISTENT, ERR_TIMEOUT_OPEN, ERR_TIMEOUT_CLOSE, ERR_STATE_GUARDRAIL, ERR_OK]))
    | exact errSticky_fin _ _ _ _ (Or.inl rfl)

lemma errSticky_step_detenido (s : Fsm) (i : CycleIn) : ErrSticky s (step_detenido s i) := by
  unfold step_detenido
  dsimp only
  repeat' split
  all_goals first
    | (apply errSticky_retorno
       first
         | exact Or.inl rfl
         | exact Or.inr (by simp [ERR_LS_INCONSISTENT, ERR_TIMEOUT_OPEN, ERR_TIMEOUT_CLOSE, ERR_STATE_GUARDRAIL, ERR_OK]))
    | exact errSticky_fin _ _ _ _ (Or.inl rfl)

lemma errSticky_step_desconocido (s : Fsm) (i : CycleIn) : ErrSticky s (step_desconocido s i) := by
  unfold step_desconocido
  dsimp only
  repeat' split
  all_goals first
    | (apply errSticky_retorno
       first
         | exact Or.inl rfl
         | exact Or.inr (by simp [ERR_LS_INCONSISTENT, ERR_TIMEOUT_OPEN, ERR_TIMEOUT_CLOSE, ERR_STATE_GUARDRAIL, ERR_OK]))
    | exact errSticky_fin _ _ _ _ (Or.inl rfl)

lemma errSticky_step_error (s : Fsm) (i : CycleIn) : ErrSticky s (step_error s i) := by
  unfold step_error
  dsimp only
  repeat' split
  all_goals first
    | (apply errSticky_retorno
       first
         | exact Or.inl rfl
         | exact Or.inr (by simp [ERR_LS_INCONSISTENT, ERR_TIMEOUT_OPEN, ERR_TIMEOUT_CLOSE, ERR_STATE_GUARDRAIL, ERR_OK]))
    | exact errSticky_fin _ _ _ _ (Or.inl rfl)

lemma errSticky_step_abriendo (s : Fsm) (i : CycleIn) : ErrSticky s (step_abriendo s i) := by
  unfold step_abriendo
  dsimp only
  repeat' split
  all_goals first
    | (apply errSticky_retorno
       first
         | exact Or.inl rfl
         | exact Or.inr (by simp [ERR_LS_INCONSISTENT, ERR_TIMEOUT_OPEN, ERR_TIMEOUT_CLOSE, ERR_STATE_GUARDRAIL, ERR_OK]))
    | exact errSticky_reversa_c _ _ _ (Or.inl rfl)
    | exact errSticky_fin _ _ _ _ (Or.inl rfl)

lemma errSticky_step_cerrando (s : Fsm) (i : CycleIn) : ErrSticky s (step_cerrando s i) := by
  unfold step_cerrando
  dsimp only
  repeat' split
  all_goals first
    | (apply errSticky_retorno
       first
         | exact Or.inl rfl
         | exact Or.inr (by simp [ERR_LS_INCONSISTENT, ERR_TIMEOUT_OPEN, ERR_TIMEOUT_CLOSE, ERR_STATE_GUARDRAIL, ERR_OK]))
    | exact errSticky_reversa_a _ _ _ (Or.inl rfl)
    | exact errSticky_fin _ _ _ _ (Or.inl rfl)

lemma errSticky_step (s : Fsm) (i : CycleIn) : ErrSticky s (fsm_step s i) := by
  unfold fsm_step
  repeat' split
  all_goals first
    | exact errSticky_step_inicial s i
    | exact errSticky_step_abierto s i
    | exact errSticky_step_cerrado s i
    | exact errSticky_step_detenido s i
    | exact errSticky_step_desconocido s i
    | exact errSticky_step_error s i
    | exact errSticky_step_abriendo s i
    | exact errSticky_step_cerrando s i
    | (apply errSticky_retorno
       exact Or.inr (by simp [ERR_LS_INCONSISTENT, ERR_TIMEOUT_OPEN, ERR_TIMEOUT_CLOSE, ERR_STATE_GUARDRAIL, ERR_OK]))

lemma statusCount_nil : statusCount [] = 0 := rfl

lemma cnt_step_inicial (s : Fsm) (i : CycleIn)
    (hne : s.g_estado_prev = -1 ∨ s.g_estado_prev = ESTADO_INICIAL)
    (hk : s.g_estado = ESTADO_INICIAL) :
    statusCount (step_inicial s i).pubs =
      if (step_inicial s i).s.g_estado = s.g_estado then 0 else 1 := by
  unfold step_inicial
  dsimp only
  repeat' split
  all_goals rcases hne with h | h
  all_goals simp_all [inicial_ret_count, inicial_ret_estado, leer_sensores, h, hk,
    ESTADO_INICIAL, ESTADO_ERROR, ESTADO_ABRIENDO, ESTADO_ABIERTO, ESTADO_CERRANDO,
    ESTADO_CERRADO, ESTADO_DETENIDO, ESTADO_DESCONOCIDO]

lemma cnt_step_abierto (s : Fsm) (i : CycleIn)
    (hPrev : s.g_estado_prev = s.g_estado) (hk : s.g_estado = ESTADO_ABIERTO) :
    statusCount (step_abierto s i).pubs =
      if (step_abierto s i).s.g_estado = s.g_estado then 0 else 1 := by
  unfold step_abierto
  dsimp only
  repeat' split
  all_goals simp_all [retorno_count, retorno_estado, fin_ciclo_count, fin_ciclo_estado,
    statusCount_nil, leer_sensores, lampApply, hPrev, hk,
    ESTADO_INICIAL, ESTADO_ERROR, ESTADO_ABRIENDO, ESTADO_ABIERTO, ESTADO_CERRANDO,
    ESTADO_CERRADO, ESTADO_DETENIDO, ESTADO_DESCONOCIDO]

lemma cnt_step_cerrado (s : Fsm) (i : CycleIn)
    (hPrev : s.g_estado_prev = s.g_estado) (hk : s.g_estado = ESTADO_CERRADO) :
    statusCount (step_cerrado s i).pubs =
      if (step_cerrado s i).s.g_estado = s.g_estado then 0 else 1 := by
  unfold step_cerrado
  dsimp only
  repeat' split
  all_goals simp_all [retorno_count, retorno_estado, fin_ciclo_count, fin_ciclo_estado,
    statusCount_nil, leer_sensores, lampApply, hPrev, hk,
    ESTADO_INICIAL, ESTADO_ERROR, ESTADO_ABRIENDO, ESTADO_ABIERTO, ESTADO_CERRANDO,
    ESTADO_CERRADO, ESTADO_DETENIDO, ESTADO_DESCONOCIDO]

lemma cnt_step_detenido (s : Fsm) (i : CycleIn)
    (hPrev : s.g_estado_prev = s.g_estado) (hk : s.g_estado = ESTADO_DETENIDO) :
    statusCount (step_detenido s i).pubs =
      if (step_detenido s i).s.g_estado = s.g_estado then 0 else 1 := by
  unfold step_detenido
  dsimp only
  repeat' split
  all_goals simp_all [retorno_count, retorno_estado, fin_ciclo_count, fin_ciclo_estado,
    statusCount_nil, leer_sensores, lampApply, hPrev, hk,
    ESTADO_INICIAL, ESTADO_ERROR, ESTADO_ABRIENDO, ESTADO_ABIERTO, ESTADO_CERRANDO,
    ESTADO_CERRADO, ESTADO_DETENIDO, ESTADO_DESCONOCIDO]

lemma cnt_step_desconocido (s : Fsm) (i : CycleIn)
    (hPrev : s.g_estado_prev = s.g_estado) (hk : s.g_estado = ESTADO_DESCONOCIDO) :
    statusCount (step_desconocido s i).pubs =
      if (step_desconocido s i).s.g_estado = s.g_estado then 0 else 1 := by
  unfold step_desconocido
  dsimp only
  repeat' split
  all_goals simp_all [retorno_count, retorno_estado, fin_ciclo_count, fin_ciclo_estado,
    statusCount_nil, leer_sensores, lampApply, hPrev, hk,
    ESTADO_INICIAL, ESTADO_ERROR, ESTADO_ABRIENDO, ESTADO_ABIERTO, ESTADO_CERRANDO,
    ESTADO_CERRADO, ESTADO_DETENIDO, ESTADO_DESCONOCIDO]

lemma cnt_step_error (s : Fsm) (i : CycleIn)
    (hPrev : s.g_estado_prev = s.g_estado) (hk : s.g_estado = ESTADO_ERROR) :
    statusCount (step_error s i).pubs =
      if (step_error s i).s.g_estado = s.g_estado then 0 else 1 := by
  unfold step_error
  dsimp only
  repeat' split
  all_goals simp_all [retorno_count, retorno_estado, fin_ciclo_count, fin_ciclo_estado,
    statusCount_nil, leer_sensores, lampApply, hPrev, hk,
    ESTADO_INICIAL, ESTADO_ERROR, ESTADO_ABRIENDO, ESTADO_ABIERTO, ESTADO_CERRANDO,
    ESTADO_CERRADO, ESTADO_DETENIDO, ESTADO_DESCONOCIDO]

lemma cnt_step_abriendo (s : Fsm) (i : CycleIn)
    (hPrev : s.g_estado_prev = s.g_estado) (hk : s.g_estado = ESTADO_ABRIENDO) :
    statusCount (step_abriendo s i).pubs =
      if (step_abriendo s i).s.g_estado = s.g_estado then 0 else 1 := by
  unfold step_abriendo
  dsimp only
  repeat' split
  all_goals simp_all [retorno_count, retorno_estado, fin_ciclo_count, fin_ciclo_estado,
    reversa_c_count, reversa_c_estado, motor_stop,
    statusCount_nil, leer_sensores, lampApply, hPrev, hk,
    ESTADO_INICIAL, ESTADO_ERROR, ESTADO_ABRIENDO, ESTADO_ABIERTO, ESTADO_CERRANDO,
    ESTADO_CERRADO, ESTADO_DETENIDO, ESTADO_DESCONOCIDO]

lemma cnt_step_cerrando (s : Fsm) (i : CycleIn)
    (hPrev : s.g_estado_prev = s.g_estado) (hk : s.g_estado = ESTADO_CERRANDO) :
    statusCount (step_cerrando s i).pubs =
      if (step_cerrando s i).s.g_estado = s.g_estado then 0 else 1 := by
  unfold step_cerrando
  dsimp only
  repeat' split
  all_goals simp_all [retorno_count, retorno_estado, fin_ciclo_count, fin_ciclo_estado,
    reversa_a_count, reversa_a_estado, motor_stop,
    statusCount_nil, leer_sensores, lampApply, hPrev, hk,
    ESTADO_INICIAL, ESTADO_ERROR, ESTADO_ABRIENDO, ESTADO_ABIERTO, ESTADO_CERRANDO,
    ESTADO_CERRADO, ESTADO_DETENIDO, ESTADO_DESCONOCIDO]

lemma prevInv_reachable (s : Fsm) (h : Reachable s) :
    s.g_estado_prev = s.g_estado ∨
      (s.g_estado = ESTADO_INICIAL ∧ s.g_estado_prev = -1) := by
  induction h with
  | init t0 => exact Or.inr ⟨rfl, rfl⟩
  | step s i hs ih => exact Or.inl (prevOk_step s i)

lemma retorno_motors_off (n : Int) (s : Fsm) (now : Nat) (c : Bool) (acc : List Pub)
    (h2 : n ≠ ESTADO_ABRIENDO) (h4 : n ≠ ESTADO_CERRANDO) :
    (retorno n s now c acc).s.g_motorA = false ∧
    (retorno n s now c acc).s.g_motorC = false := by
  apply (motorInv_retorno n s now c acc).2
  rw [retorno_estado]
  exact ⟨h2, h4⟩

lemma inicial_ret_motors_off (n : Int) (s : Fsm) (now : Nat)
    (h2 : n ≠ ESTADO_ABRIENDO) (h4 : n ≠ ESTADO_CERRANDO) :
    (inicial_ret n s now).s.g_motorA = false ∧
    (inicial_ret n s now).s.g_motorC = false := by
  apply (inicial_ret_fields n s now).2.2.2.2
  rw [inicial_ret_estado]
  exact ⟨h2, h4⟩

/-- C1: in every reachable FSM configuration the two motor outputs are
never energized simultaneously, and in the non-moving states (ABIERTO,
CERRADO, DETENIDO, ERROR, INICIAL, DESCONOCIDO) both motor outputs
are 0. -/
theorem C1_motor_outputs_safe :
    ∀ s : Fsm, Reachable s →
      (¬(s.g_motorA = true ∧ s.g_motorC = true)) ∧
      ((s.g_estado = ESTADO_ABIERTO ∨ s.g_estado = ESTADO_CERRADO ∨
        s.g_estado = ESTADO_DETENIDO ∨ s.g_estado = ESTADO_ERROR ∨
        s.g_estado = ESTADO_INICIAL ∨ s.g_estado = ESTADO_DESCONOCIDO) →
        (s.g_motorA = false ∧ s.g_motorC = false)) := by
  intro s hs
  have h := motorInv_reachable s hs
  refine ⟨h.1, ?_⟩
  intro hm
  apply h.2
  rcases hm with h | h | h | h | h | h
  all_goals rw [h]
  all_goals exact ⟨by decide, by decide⟩

/-- C3: from any reachable configuration, one FSM cycle emits exactly
one publication on the status topic when gate_state changes during that
cycle (including the OPENING to CLOSING and CLOSING to OPENING reversal
paths) and none otherwise. -/
theorem C3_status_exactly_one_per_change :
    ∀ s : Fsm, Reachable s → ∀ i : CycleIn,
      statusCount (fsm_step s i).pubs =
        if (fsm_step s i).s.g_estado = s.g_estado then 0 else 1 := by
  intro s hs i
  rcases prevInv_reachable s hs with hPrev | ⟨h0, hm1⟩
  · by_cases h0 : s.g_estado = ESTADO_INICIAL
    · rw [fsm_step_eq_inicial s i h0]
      exact cnt_step_inicial s i (Or.inr (hPrev.trans h0)) h0
    · by_cases hE : s.g_estado = ESTADO_ERROR
      · rw [fsm_step_eq_error s i hE]
        exact cnt_step_error s i hPrev hE
      · by_cases hAb : s.g_estado = ESTADO_ABRIENDO
        · rw [fsm_step_eq_abriendo s i hAb]
          exact cnt_step_abriendo s i hPrev hAb
        · by_cases hA : s.g_estado = ESTADO_ABIERTO
          · rw [fsm_step_eq_abierto s i hA]
            exact cnt_step_abierto s i hPrev hA
          · by_cases hCe : s.g_estado = ESTADO_CERRANDO
            · rw [fsm_step_eq_cerrando s i hCe]
              exact cnt_step_cerrando s i hPrev hCe
            · by_cases hC : s.g_estado = ESTADO_CERRADO
              · rw [fsm_step_eq_cerrado s i hC]
                exact cnt_step_cerrado s i hPrev hC
              · by_cases hD : s.g_estado = ESTADO_DETENIDO
                · rw [fsm_step_eq_detenido s i hD]
                  exact cnt_step_detenido s i hPrev hD
                · by_cases hU : s.g_estado = ESTADO_DESCONOCIDO
                  · rw [fsm_step_eq_desconocido s i hU]
                    exact cnt_step_desconocido s i hPrev hU
                  · rw [fsm_step_eq_guardrail s i h0 hE hAb hA hCe hC hD hU]
                    rw [retorno_count, retorno_estado]
                    simp [statusCount_nil, hPrev, hE, Ne.symm hE]
  · rw [fsm_step_eq_inicial s i h0]
    exact cnt_step_inicial s i (Or.inl hm1) h0

/-- C9: one FSM cycle either leaves g_error_code unchanged or sets it
to a non-OK fault code, hence a non-OK code is never reset to OK; and
every status or telemetry message published during the cycle carries
the error code held after the cycle. -/
theorem C9_error_code_sticky :
    ∀ (s : Fsm) (i : CycleIn),
      ((fsm_step s i).s.g_error_code = s.g_error_code ∨
        (fsm_step s i).s.g_error_code ≠ ERR_OK) ∧
      (s.g_error_code ≠ ERR_OK → (fsm_step s i).s.g_error_code ≠ ERR_OK) ∧
      (∀ p ∈ (fsm_step s i).pubs, p.err = (fsm_step s i).s.g_error_code) := by
  intro s i
  have h := errSticky_step s i
  refine ⟨h.1, ?_, h.2⟩
  intro hne
  rcases h.1 with h1 | h1
  · rw [h1]; exact hne
  · exact h1

/-- C2 (amended): in every non-ERROR state of the FSM, if the debounced
readings show both limit switches asserted simultaneously, then within
one FSM cycle error_code = LS_INCONSISTENT, the motor is de-energized
and the state is ERROR.  The amendment only restricts the original
claim's quantifier from every state to every non-ERROR state: the
counterexample shows a reachable ERROR configuration in which the joint
assertion does not set LS_INCONSISTENT. -/
theorem C2_amended_nonerror_ls_inconsistent :
    ∀ (s : Fsm) (i : CycleIn),
      (s.g_estado = ESTADO_INICIAL ∨ s.g_estado = ESTADO_ABRIENDO ∨
       s.g_estado = ESTADO_ABIERTO ∨ s.g_estado = ESTADO_CERRANDO ∨
       s.g_estado = ESTADO_CERRADO ∨ s.g_estado = ESTADO_DETENIDO ∨
       s.g_estado = ESTADO_DESCONOCIDO) →
      i.lsa = true → i.lsc = true →
      (fsm_step s i).s.g_estado = ESTADO_ERROR ∧
      (fsm_step s i).s.g_error_code = ERR_LS_INCONSISTENT ∧
      (fsm_step s i).s.g_motorA = false ∧
      (fsm_step s i).s.g_motorC = false := by
  intro s i hst hla hlc
  rcases hst with h | h | h | h | h | h | h
  · rw [fsm_step_eq_inicial s i h]
    unfold step_inicial
    dsimp only
    rw [if_pos (by simp [leer_sensores, hla, hlc])]
    exact ⟨inicial_ret_estado _ _ _, by rw [inicial_ret_err],
      (inicial_ret_motors_off _ _ _ (by decide) (by decide)).1,
      (inicial_ret_motors_off _ _ _ (by decide) (by decide)).2⟩
  · rw [fsm_step_eq_abriendo s i h]
    unfold step_abriendo
    dsimp only
    rw [if_pos (by simp [leer_sensores, hla, hlc])]
    exact ⟨retorno_estado _ _ _ _ _, by rw [retorno_err],
      (retorno_motors_off _ _ _ _ _ (by decide) (by decide)).1,
      (retorno_motors_off _ _ _ _ _ (by decide) (by decide)).2⟩
  · rw [fsm_step_eq_abierto s i h]
    unfold step_abierto
    dsimp only
    rw [if_pos (by simp [leer_sensores, hla, hlc])]
    exact ⟨retorno_estado _ _ _ _ _, by rw [retorno_err],
      (retorno_motors_off _ _ _ _ _ (by decide) (by decide)).1,
      (retorno_motors_off _ _ _ _ _ (by decide) (by decide)).2⟩
  · rw [fsm_step_eq_cerrando s i h]
    unfold step_cerrando
    dsimp only
    rw [if_pos (by simp [leer_sensores, hla, hlc])]
    exact ⟨retorno_estado _ _ _ _ _, by rw [retorno_err],
      (retorno_motors_off _ _ _ _ _ (by decide) (by decide)).1,
      (retorno_motors_off _ _ _ _ _ (by decide) (by decide)).2⟩
  · rw [fsm_step_eq_cerrado s i h]
    unfold step_cerrado
    dsimp only
    rw [if_pos (by simp [leer_sensores, hla, hlc])]
    exact ⟨retorno_estado _ _ _ _ _, by rw [retorno_err],
      (retorno_motors_off _ _ _ _ _ (by decide) (by decide)).1,
      (retorno_motors_off _ _ _ _ _ (by decide) (by decide)).2⟩
  · rw [fsm_step_eq_detenido s i h]
    unfold step_detenido
    dsimp only
    rw [if_pos (by simp [leer_sensores, hla, hlc])]
    exact ⟨retorno_estado _ _ _ _ _, by rw [retorno_err],
      (retorno_motors_off _ _ _ _ _ (by decide) (by decide)).1,
      (retorno_motors_off _ _ _ _ _ (by decide) (by decide)).2⟩
  · rw [fsm_step_eq_desconocido s i h]
    unfold step_desconocido
    dsimp only
    rw [if_pos (by simp [leer_sensores, hla, hlc])]
    exact ⟨retorno_estado _ _ _ _ _, by rw [retorno_err],
      (retorno_motors_off _ _ _ _ _ (by decide) (by decide)).1,
      (retorno_motors_off _ _ _ _ _ (by decide) (by decide)).2⟩

/-- C2 (counterexample): a reachable configuration in ERROR with
error_code TIMEOUT_OPEN which, on a cycle observing both limits
asserted, stays in ERROR without ever setting LS_INCONSISTENT, refuting
the claim for the ERROR state. -/
theorem C2_counterexample_error_state :
    Reachable cexErrState ∧
    cexErrState.g_estado = ESTADO_ERROR ∧
    cexErrState.g_error_code = ERR_TIMEOUT_OPEN ∧
    cexIn4.lsa = true ∧ cexIn4.lsc = true ∧
    (fsm_step cexErrState cexIn4).s.g_estado = ESTADO_ERROR ∧
    (fsm_step cexErrState cexIn4).s.g_error_code = ERR_TIMEOUT_OPEN ∧
    ¬((fsm_step cexErrState cexIn4).s.g_error_code = ERR_LS_INCONSISTENT) := by
  refine ⟨?_, by decide, by decide, rfl, rfl, by decide, by decide, by decide⟩
  exact Reachable.step _ cexIn3 (Reachable.step _ cexIn2 (Reachable.step _ cexIn1 (Reachable.init 0)))

/-- C4: during OPENING (resp. CLOSING), a cycle in which the target
limit switch is asserted goes to ABIERTO (resp. CERRADO) regardless of
the clock because the limit check precedes the deadline check, and a
cycle whose clock reading is at most the deadline (in particular equal
to it: the comparison is strict greater-than) never yields ERROR. -/
theorem C4_limit_checked_before_deadline :
    ∀ (s : Fsm) (i : CycleIn),
      (s.g_estado = ESTADO_ABRIENDO → i.lsa = true → i.lsc = false →
        (fsm_step s i).s.g_estado = ESTADO_ABIERTO) ∧
      (s.g_estado = ESTADO_ABRIENDO → i.lsc = false → i.now_us ≤ s.deadline_us →
        (fsm_step s i).s.g_estado ≠ ESTADO_ERROR) ∧
      (s.g_estado = ESTADO_CERRANDO → i.lsc = true → i.lsa = false →
        (fsm_step s i).s.g_estado = ESTADO_CERRADO) ∧
      (s.g_estado = ESTADO_CERRANDO → i.lsa = false → i.now_us ≤ s.deadline_us →
        (fsm_step s i).s.g_estado ≠ ESTADO_ERROR) := by
  intro s i
  refine ⟨?_, ?_, ?_, ?_⟩
  · intro h hla hlc
    rw [fsm_step_eq_abriendo s i h]
    unfold step_abriendo
    dsimp only
    repeat' split
    all_goals simp_all [leer_sensores, retorno_estado, reversa_c_estado, fin_ciclo_estado,
      motor_stop, lampApply]
  · intro h hlc hnow
    rw [fsm_step_eq_abriendo s i h]
    unfold step_abriendo
    dsimp only
    repeat' split
    all_goals simp_all [leer_sensores, retorno_estado, reversa_c_estado, fin_ciclo_estado,
      motor_stop, lampApply, ESTADO_ERROR, ESTADO_ABIERTO, ESTADO_DETENIDO, ESTADO_CERRANDO,
      ESTADO_ABRIENDO]
    all_goals omega
  · intro h hlc hla
    rw [fsm_step_eq_cerrando s i h]
    unfold step_cerrando
    dsimp only
    repeat' split
    all_goals simp_all [leer_sensores, retorno_estado, reversa_a_estado, fin_ciclo_estado,
      motor_stop, lampApply]
  · intro h hla hnow
    rw [fsm_step_eq_cerrando s i h]
    unfold step_cerrando
    dsimp only
    repeat' split
    all_goals simp_all [leer_sensores, retorno_estado, reversa_a_estado, fin_ciclo_estado,
      motor_stop, lampApply, ESTADO_ERROR, ESTADO_CERRADO, ESTADO_DETENIDO, ESTADO_CERRANDO,
      ESTADO_ABRIENDO]
    all_goals omega

/-- C6: when the FSM is in DETENIDO and a cycle consumes a TOGGLE
command, the next state is ABRIENDO if the debounced closed-limit
reading is asserted and CERRANDO otherwise. -/
theorem C6_stopped_toggle_direction :
    ∀ (s : Fsm) (i : CycleIn),
      s.g_estado = ESTADO_DETENIDO → i.cmd = some gate_cmd.CMD_TOGGLE →
      (fsm_step s i).consumed = true →
      (fsm_step s i).s.g_estado =
        (if i.lsc = true then ESTADO_ABRIENDO else ESTADO_CERRANDO) := by
  intro s i h hcmd hcons
  rw [fsm_step_eq_detenido s i h] at hcons ⊢
  unfold step_detenido at hcons ⊢
  dsimp only at hcons ⊢
  repeat' split at hcons
  all_goals repeat' split
  all_goals simp_all [leer_sensores, retorno_estado, retorno_consumed, fin_ciclo_consumed,
    lampApply]

/-- C10: in DETENIDO, a cycle with exactly one debounced limit switch
asserted transitions to ABIERTO or CERRADO without consuming any queued
command; consequently any command (in particular TOGGLE) is consumed in
DETENIDO only when both limits are de-asserted. -/
theorem C10_stopped_position_over_commands :
    ∀ (s : Fsm) (i : CycleIn),
      s.g_estado = ESTADO_DETENIDO →
      ((i.lsa = true → i.lsc = false →
        (fsm_step s i).s.g_estado = ESTADO_ABIERTO ∧ (fsm_step s i).consumed = false) ∧
       (i.lsc = true → i.lsa = false →
        (fsm_step s i).s.g_estado = ESTADO_CERRADO ∧ (fsm_step s i).consumed = false) ∧
       ((fsm_step s i).consumed = true → i.lsa = false ∧ i.lsc = false)) := by
  intro s i h
  rw [fsm_step_eq_detenido s i h]
  unfold step_detenido
  dsimp only
  refine ⟨?_, ?_, ?_⟩
  · intro hla hlc
    repeat' split
    all_goals simp_all [leer_sensores, retorno_estado, retorno_consumed, fin_ciclo_consumed,
      lampApply]
  · intro hlc hla
    repeat' split
    all_goals simp_all [leer_sensores, retorno_estado, retorno_consumed, fin_ciclo_consumed,
      lampApply]
  · intro hcons
    repeat' split at hcons
    all_goals simp_all [leer_sensores, retorno_consumed, fin_ciclo_consumed, lampApply]

/-- C5: when the connect watchdog is armed and no IP has been acquired,
a poll strictly beyond the 30 s horizon persists boot_mode =
PROVISIONING (the configuration-AP mode) and requests a device restart;
the STA_GOT_IP handler clears the watchdog, records the connection, and
persists the operational boot mode without restarting. -/
theorem C5_connect_watchdog :
    ∀ (s : WifiSt) (now_tick : Nat),
      (s.g_connect_timer_active = true → s.g_wifi_connected = false →
        CONNECT_TIMEOUT_TICKS < tick_diff now_tick s.g_connect_start_tick →
        (connect_timeout_poll s now_tick).boot_mode_nvs = BOOTMODE_CONFIG_AP ∧
        (connect_timeout_poll s now_tick).restart_requested = true) ∧
      ((on_sta_got_ip s).g_connect_timer_active = false ∧
       (on_sta_got_ip s).g_wifi_connected = true ∧
       (on_sta_got_ip s).restart_requested = s.restart_requested ∧
       (on_sta_got_ip s).boot_mode_nvs = BOOTMODE_STA_ONLY) := by
  intro s now_tick
  constructor
  · intro hact hconn hto
    unfold connect_timeout_poll
    rw [if_pos (by simp [hact, hconn]), if_pos hto]
    exact ⟨rfl, rfl⟩
  · unfold on_sta_got_ip
    dsimp only
    split
    all_goals exact ⟨rfl, rfl, rfl, rfl⟩

theorem C5_connect_watchdog_witness :
    ((connect_timeout_poll c5WitnessState 30001).boot_mode_nvs = BOOTMODE_CONFIG_AP ∧
     (connect_timeout_poll c5WitnessState 30001).restart_requested = true) ∧
    ((on_sta_got_ip c5WitnessState).g_connect_timer_active = false ∧
     (on_sta_got_ip c5WitnessState).g_wifi_connected = true ∧
     (on_sta_got_ip c5WitnessState).restart_requested = c5WitnessState.restart_requested ∧
     (on_sta_got_ip c5WitnessState).boot_mode_nvs = BOOTMODE_STA_ONLY) :=
  ⟨(C5_connect_watchdog c5WitnessState 30001).1 rfl rfl (by decide),
   (C5_connect_watchdog c5WitnessState 30001).2⟩

lemma strcasecmp_eq_iff (a b : String) :
    strcasecmp_eq a b = true ↔ lower_str a = lower_str b := by
  unfold strcasecmp_eq
  exact beq_iff_eq

lemma lower_OPEN : lower_str "OPEN" = "open" := by decide

lemma lower_CLOSE : lower_str "CLOSE" = "close" := by decide

lemma lower_STOP : lower_str "STOP" = "stop" := by decide

lemma lower_TOGGLE : lower_str "TOGGLE" = "toggle" := by decide

lemma lower_LAMP_ON : lower_str "LAMP_ON" = "lamp_on" := by decide

lemma lower_LAMP_OFF : lower_str "LAMP_OFF" = "lamp_off" := by decide

lemma decode_cmd_string_ne (v : String) :
    decode_cmd_string v ≠ gate_cmd.CMD_NONE ↔
      (lower_str v = "open" ∨ lower_str v = "close" ∨ lower_str v = "stop" ∨
       lower_str v = "toggle" ∨ lower_str v = "lamp_on" ∨ lower_str v = "lamp_off") := by
  unfold decode_cmd_string
  simp only [strcasecmp_eq, lower_OPEN, lower_CLOSE, lower_STOP, lower_TOGGLE,
    lower_LAMP_ON, lower_LAMP_OFF]
  by_cases h1 : lower_str v = "open"
  · simp [h1]
  · by_cases h2 : lower_str v = "close"
    · simp [h1, h2]
    · by_cases h3 : lower_str v = "stop"
      · simp [h1, h2, h3]
      · by_cases h4 : lower_str v = "toggle"
        · simp [h1, h2, h3, h4]
        · by_cases h5 : lower_str v = "lamp_on"
          · simp [h1, h2, h3, h4, h5]
          · by_cases h6 : lower_str v = "lamp_off"
            · simp [h1, h2, h3, h4, h5, h6]
            · simp [h1, h2, h3, h4, h5, h6]

/-- C7: the command decoder yields a command exactly when the payload
parses to an object whose string member cmd matches one of OPEN, CLOSE,
STOP, TOGGLE, LAMP_ON, LAMP_OFF case-insensitively; a decoded command
is appended to the queue when fewer than 16 entries are present, a
failed or unrecognized payload leaves the queue unchanged, and a full
(16-entry) queue is left unchanged with its entries preserved. -/
theorem C7_decoder_and_queue :
    ∀ (q : List gate_cmd) (payload : Option Json),
      (parse_cmd_json payload ≠ gate_cmd.CMD_NONE ↔
        (∃ v, cmd_field payload = some v ∧
          (lower_str v = "open" ∨ lower_str v = "close" ∨ lower_str v = "stop" ∨
           lower_str v = "toggle" ∨ lower_str v = "lamp_on" ∨ lower_str v = "lamp_off"))) ∧
      (parse_cmd_json payload = gate_cmd.CMD_NONE → mqtt_event_data q payload = q) ∧
      (parse_cmd_json payload ≠ gate_cmd.CMD_NONE → q.length < QUEUE_CAPACITY →
        mqtt_event_data q payload = q ++ [parse_cmd_json payload]) ∧
      (QUEUE_CAPACITY ≤ q.length → mqtt_event_data q payload = q) := by
  intro q payload
  refine ⟨?_, ?_, ?_, ?_⟩
  · rcases hc : cmd_field payload with _ | v
    · simp [parse_cmd_json, hc]
    · simp only [parse_cmd_json, hc]
      rw [decode_cmd_string_ne]
      constructor
      · intro h
        exact ⟨v, rfl, h⟩
      · intro ⟨w, hw, hmatch⟩
        have hvw : v = w := by simpa using hw
        subst hvw
        exact hmatch
  · intro h
    unfold mqtt_event_data
    simp [h]
  · intro h hlen
    unfold mqtt_event_data xQueueSend
    simp [h, hlen]
  · intro h
    unfold mqtt_event_data xQueueSend
    dsimp only
    split
    · split
      · exfalso
        omega
      · rfl
    · rfl

/-- C8: in-place URL decoding maps each plus to a space, each percent
followed by two valid hex digits to the corresponding byte, passes a
malformed percent sequence through literally, and in particular decodes
"a%20b+c" to "a b c" and "%ZZ" to "%ZZ" verbatim. -/
theorem C8_url_decode :
    (∀ rest : List Char,
      url_decode_inplace ('+' :: rest) = ' ' :: url_decode_inplace rest) ∧
    (∀ (a b : Char) (rest : List Char), 0 ≤ hex2val a → 0 ≤ hex2val b →
      url_decode_inplace ('%' :: a :: b :: rest) =
        Char.ofNat ((hex2val a).toNat * 16 + (hex2val b).toNat) ::
          url_decode_inplace rest) ∧
    (∀ (a b : Char) (rest : List Char), ¬(0 ≤ hex2val a ∧ 0 ≤ hex2val b) →
      url_decode_inplace ('%' :: a :: b :: rest) =
        '%' :: url_decode_inplace (a :: b :: rest)) ∧
    url_decode_str "a%20b+c" = "a b c" ∧
    url_decode_str "%ZZ" = "%ZZ" := by
  refine ⟨?_, ?_, ?_, ?_, ?_⟩
  · intro rest
    simp [url_decode_inplace]
  · intro a b rest ha hb
    simp [url_decode_inplace, ha, hb]
  · intro a b rest h
    simp [url_decode_inplace, h]
  · simp [url_decode_str, url_decode_inplace, hex2val]
  · simp [url_decode_str, url_decode_inplace, hex2val]

theorem C1_motor_outputs_safe_witness :
    c1State.g_motorA = false ∧ c1State.g_motorC = false :=
  (C1_motor_outputs_safe c1State
      (Reachable.step (fsm_init 0) ⟨false, true, none, 0⟩ (Reachable.init 0))).2
    (Or.inr (Or.inl (by decide)))

theorem C2_amended_witness :
    (fsm_step c2AmState c2AmIn).s.g_estado = ESTADO_ERROR ∧
    (fsm_step c2AmState c2AmIn).s.g_error_code = ERR_LS_INCONSISTENT ∧
    (fsm_step c2AmState c2AmIn).s.g_motorA = false ∧
    (fsm_step c2AmState c2AmIn).s.g_motorC = false :=
  C2_amended_nonerror_ls_inconsistent c2AmState c2AmIn
    (Or.inr (Or.inr (Or.inr (Or.inr (Or.inl rfl))))) rfl rfl

theorem C3_status_witness :
    statusCount (fsm_step (fsm_init 0) c3In).pubs =
      if (fsm_step (fsm_init 0) c3In).s.g_estado = (fsm_init 0).g_estado
      then 0 else 1 :=
  C3_status_exactly_one_per_change (fsm_init 0) (Reachable.init 0) c3In

theorem C4_limit_checked_before_deadline_witness :
    (fsm_step c4Opening c4InLimitOpen).s.g_estado = ESTADO_ABIERTO ∧
    (fsm_step c4Opening c4InNoLimit).s.g_estado ≠ ESTADO_ERROR ∧
    (fsm_step c4Closing c4InLimitClosed).s.g_estado = ESTADO_CERRADO ∧
    (fsm_step c4Closing c4InNoLimit).s.g_estado ≠ ESTADO_ERROR :=
  ⟨(C4_limit_checked_before_deadline c4Opening c4InLimitOpen).1 rfl rfl rfl,
   (C4_limit_checked_before_deadline c4Opening c4InNoLimit).2.1 rfl rfl (by decide),
   (C4_limit_checked_before_deadline c4Closing c4InLimitClosed).2.2.1 rfl rfl rfl,
   (C4_limit_checked_before_deadline c4Closing c4InNoLimit).2.2.2 rfl rfl (by decide)⟩

theorem C6_stopped_toggle_witness :
    (fsm_step c6Stopped c6Toggle).s.g_estado =
      (if c6Toggle.lsc = true then ESTADO_ABRIENDO else ESTADO_CERRANDO) :=
  C6_stopped_toggle_direction c6Stopped c6Toggle rfl rfl (by decide)

theorem C7_decoder_and_queue_witness :
    mqtt_event_data [] c7Payload = [] ++ [parse_cmd_json c7Payload] ∧
    mqtt_event_data c7FullQueue c7Payload = c7FullQueue ∧
    parse_cmd_json c7Payload ≠ gate_cmd.CMD_NONE :=
  ⟨(C7_decoder_and_queue [] c7Payload).2.2.1 (by decide) (by decide),
   (C7_decoder_and_queue c7FullQueue c7Payload).2.2.2 (by decide),
   (C7_decoder_and_queue [] c7Payload).1.mpr
     ⟨"oPeN", by decide, Or.inl (by decide)⟩⟩

theorem C8_url_decode_witness :
    url_decode_inplace ('+' :: ['x']) = ' ' :: url_decode_inplace ['x'] ∧
    url_decode_inplace ('%' :: '2' :: '0' :: []) =
      Char.ofNat ((hex2val '2').toNat * 16 + (hex2val '0').toNat) ::
        url_decode_inplace [] ∧
    url_decode_inplace ('%' :: 'Z' :: 'Z' :: []) =
      '%' :: url_decode_inplace ('Z' :: 'Z' :: []) :=
  ⟨C8_url_decode.1 ['x'],
   C8_url_decode.2.1 '2' '0' [] (by decide) (by decide),
   C8_url_decode.2.2.1 'Z' 'Z' [] (by decide)⟩

theorem C9_error_code_sticky_witness :
    (fsm_step c9Open c9In).s.g_error_code ≠ ERR_OK ∧
    c9Pub.err = (fsm_step c9Open c9In).s.g_error_code :=
  ⟨(C9_error_code_sticky c9Open c9In).2.1 (by decide),
   (C9_error_code_sticky c9Open c9In).2.2 c9Pub (by decide)⟩

theorem C10_stopped_position_witness :
    ((fsm_step c10Stopped c10OpenLimit).s.g_estado = ESTADO_ABIERTO ∧
     (fsm_step c10Stopped c10OpenLimit).consumed = false) ∧
    ((fsm_step c10Stopped c10ClosedLimit).s.g_estado = ESTADO_CERRADO ∧
     (fsm_step c10Stopped c10ClosedLimit).consumed = false) ∧
    (c10NoLimit.lsa = false ∧ c10NoLimit.lsc = false) :=
  ⟨(C10_stopped_position_over_commands c10Stopped c10OpenLimit rfl).1 rfl rfl,
   (C10_stopped_position_over_commands c10Stopped c10ClosedLimit rfl).2.1 rfl rfl,
   (C10_stopped_position_over_commands c10Stopped c10NoLimit rfl).2.2 (by decide)⟩

end Gate
